import Mathlib

/-!
# Verification of the yak-box worker lifecycle orchestrator

A shallow embedding, in Lean 4, of the core components of the yak-box CLI
(a Go program): the session registry (`internal/sessions/sessions.go`), the
resource-profile resolver and sandboxed teardown (`internal/runtime/sandboxed.go`),
the process-tree terminator (`internal/runtime/native.go`), the persona
allocator and spawn orchestrator (`cmd/spawn.go`), and the stop orchestrator
(`cmd/stop.go`).

Pure Go functions become Lean functions; file-system and subprocess
interaction is embedded by passing the relevant state (registry file
contents, cursor file contents, directory trees) explicitly, or by an
environment record holding the results the external world would return
(docker/zellij command outcomes, liveness probes).  String scanning is done
over `List Char` (`String.data`) so every definition evaluates by `decide`.
-/

namespace YakBox

/-! ## Character-list string helpers

Go's `strings`/`strconv` operations used by the embedded code, modelled over
`List Char` so they reduce in the kernel. -/

/-- Go `strings.TrimSpace`, over a character list: drop leading and trailing
whitespace. -/
def trimChars (cs : List Char) : List Char :=
  ((cs.dropWhile Char.isWhitespace).reverse.dropWhile Char.isWhitespace).reverse

/-- Value of a list of decimal digit characters (most significant first). -/
def digitsToNat (cs : List Char) : Nat :=
  cs.foldl (fun a c => a * 10 + (c.toNat - 48)) 0

/-- Whether every character is an ASCII decimal digit and the list is nonempty. -/
def allDigits (cs : List Char) : Bool :=
  !cs.isEmpty && cs.all Char.isDigit

/-- Go `strconv.Atoi` applied to a trimmed string, as used by
`KillNativeProcessTree`: an optional sign followed by digits parses to an
integer, anything else is a parse error (`none`). -/
def parsePid (s : String) : Option Int :=
  let cs := trimChars s.data
  match cs with
  | '-' :: rest => if allDigits rest then some (-(digitsToNat rest : Int)) else none
  | '+' :: rest => if allDigits rest then some (digitsToNat rest : Int) else none
  | _ => if allDigits cs then some (digitsToNat cs : Int) else none

/-- Split a character list into segments at `/`, as `filepath`-style path
splitting of the relative slugs used by `findTaskDir`. -/
def splitSlashAux (cs : List Char) : List (List Char) :=
  cs.foldr
    (fun c acc =>
      match acc with
      | [] => if c = '/' then [[], []] else [[c]]
      | seg :: rest => if c = '/' then [] :: (seg :: rest) else (c :: seg) :: rest)
    [[]]

/-- Split a slug string on `/` into its path segments, dropping empty
segments (as `filepath.Join` + `Clean` would). -/
def splitSlug (s : String) : List String :=
  ((splitSlashAux s.data).filter (fun seg => !seg.isEmpty)).map List.asString

/-- Whether the first character list occurs at the head of the second. -/
def leadsWith : List Char → List Char → Bool
  | [], _ => true
  | _ :: _, [] => false
  | a :: as, b :: bs => (a == b) && leadsWith as bs

/-- Whether the first character list occurs contiguously anywhere in the
second (Go `strings.Contains`). -/
def containsSub (sub : List Char) : List Char → Bool
  | [] => sub.isEmpty
  | c :: rest => leadsWith sub (c :: rest) || containsSub sub rest

/-! ## Session registry (`internal/sessions/sessions.go`)

The registry is a JSON file mapping session ids to `Session` records.  The
file is embedded as `RegFile`: absent, present-but-invalid JSON, or a valid
map (Go map semantics are modelled by an association list with unique keys
maintained by `mapInsert`/`mapErase`).  `getRoot` (workspace discovery) is
assumed to succeed: all claims are about a managed workspace. -/

/-- `sessions.Session`: the persisted record for one running worker
(`SpawnedAt` is modelled as an abstract instant). -/
structure Session where
  Worker        : String := ""
  Task          : String := ""
  Container     : String := ""
  SpawnedAt     : Nat := 0
  Runtime       : String := ""
  CWD           : String := ""
  WorkerName    : String := ""
  DisplayName   : String := ""
  ZellijSession : String := ""
  PidFile       : String := ""
  deriving Repr, DecidableEq

/-- The in-memory `sessions.Sessions` map, as an association list. -/
abbrev SessionsMap := List (String × Session)

/-- Go map lookup `sessions[id]`. -/
def mapLookup (k : String) : SessionsMap → Option Session
  | [] => none
  | (k', v) :: rest => if k' = k then some v else mapLookup k rest

/-- Go map update `sessions[id] = s` (overwrite if present, else add). -/
def mapInsert (k : String) (v : Session) : SessionsMap → SessionsMap
  | [] => [(k, v)]
  | (k', v') :: rest => if k' = k then (k, v) :: rest else (k', v') :: mapInsert k v rest

/-- Go `delete(sessions, id)` (no-op when the key is absent). -/
def mapErase (k : String) : SessionsMap → SessionsMap
  | [] => []
  | (k', v') :: rest => if k' = k then mapErase k rest else (k', v') :: mapErase k rest

/-- The on-disk state of `.yak-boxes/sessions.json`. -/
inductive RegFile
  | absent
  | invalid
  | valid (m : SessionsMap)
  deriving Repr, DecidableEq

/-- Errors surfaced by the sessions package: `ErrSessionNotFound`, or a
load/save failure with a message. -/
inductive SessionsErr
  | notFound
  | loadErr (msg : String)
  deriving Repr, DecidableEq

/-- `sessions.Load`: a missing file is an empty map (not an error); a file
that fails `json.Unmarshal` is an error; otherwise the stored map. -/
def loadSessions : RegFile → Except SessionsErr SessionsMap
  | .absent => .ok []
  | .invalid => .error (.loadErr "failed to unmarshal sessions")
  | .valid m => .ok m

/-- `sessions.Save`: serialize the map back to the file. -/
def saveSessions (m : SessionsMap) : RegFile := .valid m

/-- `sessions.Register`: load, insert/overwrite, save.  Returns the new
file state and the error result; on a load failure the file is unchanged. -/
def register (id : String) (s : Session) (f : RegFile) :
    RegFile × Except SessionsErr Unit :=
  match loadSessions f with
  | .error e => (f, .error e)
  | .ok m => (saveSessions (mapInsert id s m), .ok ())

/-- `sessions.Unregister`: load, delete if present, save.  An absent key is
not an error. -/
def unregister (id : String) (f : RegFile) :
    RegFile × Except SessionsErr Unit :=
  match loadSessions f with
  | .error e => (f, .error e)
  | .ok m => (saveSessions (mapErase id m), .ok ())

/-- `sessions.Get`: load, then look up the id; a missing id is
`ErrSessionNotFound`. -/
def getSession (id : String) (f : RegFile) : Except SessionsErr Session :=
  match loadSessions f with
  | .error e => .error e
  | .ok m =>
    match mapLookup id m with
    | none => .error .notFound
    | some s => .ok s

/-! ## Resource profile resolver (`internal/runtime/sandboxed.go`, `GetResourceProfile`) -/

/-- `types.ResourceProfile`: the limit strings handed to docker flags
(`Tmpfs` is the mount-point map, as an association list). -/
structure ResourceProfile where
  Name   : String
  CPUs   : String
  Memory : String
  Swap   : String
  PIDs   : Nat
  Tmpfs  : List (String × String)
  deriving Repr, DecidableEq

/-- `runtime.GetResourceProfile`: a pure switch on the profile name whose
default branch (taken by `"default"` and by every unrecognized name) is the
default profile.  There is no error channel: the function is total. -/
def getResourceProfile (name : String) : ResourceProfile :=
  if name = "light" then
    { Name := "light", CPUs := "0.5", Memory := "1g", Swap := "", PIDs := 256,
      Tmpfs := [("/tmp", "size=1g,exec,uid=1000,gid=1000"),
                ("/home/yak-shaver", "size=512m,exec,uid=1000,gid=1000"),
                ("/home/yak-shaver/.cache", "size=512m,exec,uid=1000,gid=1000")] }
  else if name = "heavy" then
    { Name := "heavy", CPUs := "2.0", Memory := "4g", Swap := "", PIDs := 1024,
      Tmpfs := [("/tmp", "size=2g,exec,uid=1000,gid=1000"),
                ("/home/yak-shaver", "size=1g,exec,uid=1000,gid=1000"),
                ("/home/yak-shaver/.cache", "size=1g,exec,uid=1000,gid=1000")] }
  else if name = "ram" then
    { Name := "ram", CPUs := "0", Memory := "8g", Swap := "16g", PIDs := 2048,
      Tmpfs := [("/tmp", "size=4g,exec,uid=1000,gid=1000"),
                ("/home/yak-shaver", "size=2g,exec,uid=1000,gid=1000"),
                ("/home/yak-shaver/.cache", "size=2g,exec,uid=1000,gid=1000")] }
  else
    { Name := "default", CPUs := "1.0", Memory := "2g", Swap := "", PIDs := 512,
      Tmpfs := [("/tmp", "size=1g,exec,uid=1000,gid=1000"),
                ("/home/yak-shaver", "size=512m,exec,uid=1000,gid=1000"),
                ("/home/yak-shaver/.cache", "size=512m,exec,uid=1000,gid=1000")] }

/-- Interpretation of a docker memory-limit string of the form `"<n>g"`
(gigabytes), used to compare profile limits numerically. -/
def memGigs (s : String) : Option Nat :=
  match s.data.reverse with
  | 'g' :: revDigits =>
    let ds := revDigits.reverse
    if allDigits ds then some (digitsToNat ds) else none
  | _ => none

/-- Interpretation of a docker `--cpus` string of the form `"<n>.<d>"` in
tenths of a CPU, used to compare profile CPU shares numerically. -/
def cpuTenths (s : String) : Option Nat :=
  match (splitSlashAux (s.data.map (fun c => if c = '.' then '/' else c))) with
  | [intPart, fracPart] =>
    if allDigits intPart && allDigits fracPart && fracPart.length = 1 then
      some (digitsToNat intPart * 10 + digitsToNat fracPart)
    else none
  | _ => none

/-! ## Persona allocator (`cmd/spawn.go`, `pickWorkerName` and `types.WorkerNames`)

`pickWorkerName` reads a cursor integer from `.yak-boxes/.last-persona`,
treats an unreadable or out-of-range value as index 0, returns the persona
at the current index and persists `(index + 1) mod N`.  The cursor file is
embedded as the integer it holds (`strconv.Itoa` writes exactly the decimal
rendering that `strconv.Atoi` reads back); `none` is an absent or unreadable
file.  The random fallback taken outside a managed workspace is not
modelled: every claim is about a managed workspace, where
`sessions.GetYakBoxesDir` succeeds and the file write is effective. -/

/-- `types.WorkerNames`: the fixed persona-name pool. -/
def WorkerNames : List String := ["Yakriel", "Yakueline", "Yakov", "Yakira"]

/-- State of the `.last-persona` cursor file: `none` when the file is absent
or unreadable, otherwise the integer its content parses to. -/
structure PersonaState where
  cursor : Option Int
  deriving Repr, DecidableEq

/-- A fresh workspace: no cursor file yet. -/
def freshPersonaState : PersonaState := ⟨none⟩

/-- `pickWorkerName`, parametrized by the persona list: read the cursor
(absent, unparsable or out-of-range means 0), return the persona at the
current index, persist `(index + 1) mod n`. -/
def pickWorkerName (names : List String) (st : PersonaState) : String × PersonaState :=
  let n := names.length
  if n = 0 then ("", st)
  else
    let idx : Nat :=
      match st.cursor with
      | none => 0
      | some i => if i < 0 ∨ (n : Int) ≤ i then 0 else i.toNat
    let next := (idx + 1) % n
    (names.getD idx "", ⟨some (next : Int)⟩)

/-- Iterate `pickWorkerName`, collecting the sequence of returned personas
and the final cursor state. -/
def pickSeq (names : List String) (st : PersonaState) : Nat → List String × PersonaState
  | 0 => ([], st)
  | k + 1 =>
    let (w, st') := pickWorkerName names st
    let (ws, st'') := pickSeq names st' k
    (w :: ws, st'')

/-! ## Process-tree terminator (`internal/runtime/native.go`, `KillNativeProcessTree`)

The OS interaction is embedded in `KillEnv`: the PID-file read result, the
initial liveness probe (signal 0), and per-poll-iteration liveness.  The
timeout/100ms-sleep loop becomes a bounded number of poll iterations.
`os.FindProcess` never fails on Unix, and a failed group-signal send falls
back to signalling the single process without changing control flow or the
result, so neither is given an environment knob. -/

/-- Environment for one `KillNativeProcessTree` call. -/
structure KillEnv where
  /-- `os.ReadFile(pidFile)`: `none` is a read error. -/
  readResult : Option String
  /-- Result of the initial `Signal(0)` probe: `true` means the process is
  alive (the probe returned no error). -/
  aliveAtProbe : Bool
  /-- Liveness at the i-th iteration of the post-SIGTERM poll loop. -/
  aliveDuringPoll : Nat → Bool

/-- What a successful `KillNativeProcessTree` call did. -/
structure KillOutcome where
  /-- Whether `os.Remove(pidFile)` was executed. -/
  pidFileDeleted : Bool
  /-- Whether the call escalated to SIGKILL after the poll loop timed out. -/
  sigkillSent : Bool
  deriving Repr, DecidableEq

/-- The poll loop of `KillNativeProcessTree`: probe liveness at iterations
`i, i+1, ...` for `fuel` steps; `true` when the process was observed dead. -/
def pollFindsDead (alive : Nat → Bool) : Nat → Nat → Bool
  | _, 0 => false
  | i, fuel + 1 => if alive i then pollFindsDead alive (i + 1) fuel else true

/-- `runtime.KillNativeProcessTree(pidFile, timeout)`: read and parse the
PID (malformed content is an error); probe liveness, and if already dead
delete the PID file and succeed; otherwise SIGTERM the process group, poll
up to `polls` iterations (the timeout), deleting the file and succeeding as
soon as the process dies; on timeout SIGKILL the group, then delete the file
and succeed without re-verifying death. -/
def killNativeProcessTree (env : KillEnv) (polls : Nat) : Except String KillOutcome :=
  match env.readResult with
  | none => .error "failed to read pid file"
  | some data =>
    match parsePid data with
    | none => .error "invalid pid"
    | some _pid =>
      if env.aliveAtProbe = false then
        .ok { pidFileDeleted := true, sigkillSent := false }
      else if pollFindsDead env.aliveDuringPoll 0 polls then
        .ok { pidFileDeleted := true, sigkillSent := false }
      else
        .ok { pidFileDeleted := true, sigkillSent := true }

/-! ## Task-directory resolution (`cmd/spawn.go`, `findTaskDir`)

The `.yaks` tree is embedded as the list of directory paths strictly below
the root, each a list of path segments, given in the order `filepath.Walk`
visits them (lexical depth-first). -/

/-- The task-tracker directory tree: every directory strictly below the
root, as segment paths, in `filepath.Walk` (lexical depth-first) order. -/
structure YakFS where
  dirs : List (List String)
  deriving Repr, DecidableEq

/-- `os.Stat(path) == directory` for a path below the root. -/
def isDirIn (fs : YakFS) (p : List String) : Bool :=
  fs.dirs.contains p

/-- `findTaskDir(yakPath, taskSlug)`: first try the direct join of the root
and the slug; otherwise walk the tree collecting directories whose leaf name
matches the slug's base name (the root itself excluded), warn-and-pick-first
on multiple matches, and error when there is none.  Paths are returned
relative to the root. -/
def findTaskDir (fs : YakFS) (taskSlug : String) : Except String (List String) :=
  let direct := splitSlug taskSlug
  if isDirIn fs direct then .ok direct
  else
    let leafName := (splitSlug taskSlug).getLastD ""
    let matchDirs := fs.dirs.filter (fun p => p.getLastD "" == leafName && !p.isEmpty)
    match matchDirs with
    | [] => .error ("no directory matching " ++ taskSlug ++ " found under the yak path")
    | d :: _ => .ok d

/-- Whether a `findTaskDir` result is an error whose message contains the
given substring (the shape the spawn tests assert on). -/
def errContains (r : Except String (List String)) (sub : String) : Bool :=
  match r with
  | .error m => containsSub sub.data m.data
  | .ok _ => false

/-! ## Spawn orchestrator (`cmd/spawn.go`, `runSpawn`)

The spawn pipeline is embedded as a function of the flag values
(`SpawnArgs`) and an environment holding what each external step would
return (`SpawnEnv`).  Console printing, prompt-text assembly (an external
collaborator producing an opaque string) and the final per-task
assignment-file loop (warnings only, no effect on the result or the
registered session — its directory resolution is verified separately via
`findTaskDir`) are elided. -/

/-- `strings.Map` dropping every rune that is not an ASCII letter, digit,
dash or underscore, after `strings.ReplaceAll(name, " ", "-")`: the
container-name sanitizer inlined in `runSpawn`. -/
def sanitizeName (s : String) : String :=
  ((s.data.map (fun c => if c = ' ' then '-' else c)).filter
    (fun c => ('a' ≤ c ∧ c ≤ 'z') ∨ ('A' ≤ c ∧ c ≤ 'Z')
      ∨ ('0' ≤ c ∧ c ≤ '9') ∨ c = '-' ∨ c = '_')).asString

/-- `formatDisplayName`: the persona alone when the trimmed spawn name is
blank, otherwise persona, decoration, trimmed spawn name. -/
def formatDisplayName (workerName spawnName : String) : String :=
  let trimmedName := (trimChars spawnName.data).asString
  if trimmedName = "" then workerName
  else workerName ++ " 🪒🦬 " ++ trimmedName

/-- `resolveSpawnModel`: an explicit non-blank override wins; otherwise the
per-tool default table (`claude` ↦ `"default"`, `cursor` ↦ `"auto"`, no
default for other tools). -/
def resolveSpawnModel (tool model : String) : String :=
  if (trimChars model.data).asString ≠ "" then model
  else if tool = "claude" then "default"
  else if tool = "cursor" then "auto"
  else ""

/-- `types.Worker`: the transient record built during one spawn call. -/
structure Worker where
  Name          : String := ""
  WorkerName    : String := ""
  DisplayName   : String := ""
  ContainerName : String := ""
  Runtime       : String := ""
  CWD           : String := ""
  YakPath       : String := ""
  Tasks         : List String := []
  SpawnedAt     : Nat := 0
  SessionName   : String := ""
  WorktreePath  : String := ""
  PidFile       : String := ""
  Tool          : String := ""
  Model         : String := ""
  AgentName     : String := ""
  deriving Repr, DecidableEq

/-- The spawn command's flag values (after cobra validation). -/
structure SpawnArgs where
  cwd            : String
  name           : String
  session        : String
  mode           : String
  resources      : String
  yaks           : List String
  yakPath        : String
  runtimePref    : String
  tool           : String
  model          : String
  clean          : Bool
  autoWorktree   : Bool
  /-- Whether `--yak-path` was set explicitly (`cmd.Flags().Changed`). -/
  yakPathChanged : Bool
  /-- Positional arguments (free-text instruction). -/
  userArgs       : List String

/-- Results the external world returns to each step of `runSpawn`. -/
structure SpawnEnv where
  /-- `runtime.DetectRuntime()`. -/
  detected             : String
  /-- `filepath.Abs(spawnCWD)`: `none` is a resolution error. -/
  absCWD               : Option String
  /-- `filepath.Abs(spawnYakPath)` when `--yak-path` was given explicitly. -/
  absYakPath           : Option String
  /-- `findYakPath` result when `--yak-path` was not given: the directory
  found walking up from the working directory, or `none`. -/
  foundYakPath         : Option String
  /-- `worktree.EnsureWorktree`: the worktree path or an error. -/
  worktreeResult       : Except String String
  /-- `pickWorkerName()`: the allocated persona (verified separately). -/
  pickedWorker         : String
  /-- `sessions.CleanHome` success. -/
  cleanHomeOk          : Bool
  /-- `sessions.EnsureHomeDir`: the home path or an error. -/
  ensureHomeResult     : Except String String
  /-- `devcontainer.LoadConfig` success (the config value is opaque here). -/
  devConfigOk          : Bool
  /-- Whether `.claude/agents/<persona>-worker.md` exists under the cwd. -/
  agentFileExists      : Bool
  /-- `runtime.EnsureDevcontainer` success (sandboxed path). -/
  ensureDevcontainerOk : Bool
  /-- `runtime.SpawnSandboxedWorker` success. -/
  sandboxedLaunchOk    : Bool
  /-- `runtime.SpawnNativeWorker`: the PID-file path or an error. -/
  nativeLaunchResult   : Except String String
  /-- `sessions.Register` success (failure is only a warning). -/
  registerOk           : Bool
  /-- `time.Now()`. -/
  now                  : Nat

/-- What a successful `runSpawn` did. -/
structure SpawnOutcome where
  /-- The resolved runtime kind (`"sandboxed"` or `"native"`). -/
  runtimeType       : String
  /-- The `types.Worker` built for the launch. -/
  worker            : Worker
  /-- The session id (`--name`) and `sessions.Session` value passed to
  `sessions.Register`. -/
  sessionId         : String
  registered        : Session
  /-- Whether the registration write succeeded (failure is a warning). -/
  registerSucceeded : Bool
  deriving Repr, DecidableEq

/-- `runSpawn`: resolve the runtime (probing on `auto`, failing when no
backend is available), resolve absolute paths, optionally switch to a
worktree, allocate the persona, optionally clean and then ensure the home
directory, load the devcontainer config, resolve the resource profile,
compute display and sanitized container names, agent profile and model,
launch sandboxed or native, and register the session built from the worker. -/
def runSpawn (args : SpawnArgs) (env : SpawnEnv) : Except String SpawnOutcome :=
  let rt := if args.runtimePref = "auto" then env.detected else args.runtimePref
  if args.runtimePref = "auto" ∧ rt = "unknown" then
    .error "no runtime available (docker or zellij)"
  else
      match env.absCWD with
      | none => .error "failed to resolve working directory"
      | some absCWD0 =>
        match (if args.yakPathChanged then env.absYakPath else env.foundYakPath) with
        | none =>
          .error (if args.yakPathChanged then "failed to resolve yak path"
                  else "No .yaks found above the working directory")
        | some absYakPath =>
          match (if args.autoWorktree ∧ args.yaks ≠ [] then
                   env.worktreeResult.map some
                 else .ok none) with
          | .error _ => .error "failed to ensure worktree"
          | .ok wtOpt =>
            let worktreePath := wtOpt.getD ""
            let absCWD := wtOpt.getD absCWD0
            let workerName := env.pickedWorker
            if args.clean ∧ env.cleanHomeOk = false then
              .error "failed to clean home"
            else
              match env.ensureHomeResult with
              | .error _ => .error "failed to ensure home directory"
              | .ok _homeDir =>
                if env.devConfigOk = false then
                  .error "failed to load devcontainer config"
                else
                  let _profile := getResourceProfile args.resources
                  let displayName := formatDisplayName workerName args.name
                  let sanitizedName := sanitizeName args.name
                  let agentName :=
                    if args.tool = "claude" ∧ env.agentFileExists then
                      workerName.toLower ++ "-worker"
                    else ""
                  let resolvedModel := resolveSpawnModel args.tool args.model
                  let worker : Worker :=
                    { Name := args.name, WorkerName := workerName,
                      DisplayName := displayName,
                      ContainerName := "yak-worker-" ++ sanitizedName,
                      Runtime := rt, CWD := absCWD, YakPath := absYakPath,
                      Tasks := args.yaks, SpawnedAt := env.now,
                      SessionName := args.session,
                      WorktreePath := worktreePath, Tool := args.tool,
                      Model := resolvedModel, AgentName := agentName }
                  match ((if rt = "sandboxed" then
                           if env.ensureDevcontainerOk = false then
                             .error "failed to ensure devcontainer"
                           else if env.sandboxedLaunchOk = false then
                             .error "failed to spawn sandboxed worker"
                           else .ok worker
                         else
                           match env.nativeLaunchResult with
                           | .error _ => .error "failed to spawn native worker"
                           | .ok pidFile => .ok { worker with PidFile := pidFile }) :
                         Except String Worker) with
                  | .error e => .error e
                  | .ok launched =>
                    let taskName := args.yaks.headD ""
                    let sess : Session :=
                      { Worker := workerName, Task := taskName,
                        Container := launched.ContainerName,
                        SpawnedAt := launched.SpawnedAt, Runtime := rt,
                        CWD := absCWD, DisplayName := displayName,
                        ZellijSession := args.session,
                        PidFile := launched.PidFile }
                    .ok { runtimeType := rt, worker := launched,
                          sessionId := args.name, registered := sess,
                          registerSucceeded := env.registerOk }

/-! ## Sandboxed teardown and stop orchestrator (`internal/runtime/sandboxed.go`,
`cmd/stop.go`)

`StopSandboxedWorker` shells out to docker three times; its environment is
the `docker ps -a` filter output and the success of `docker stop` /
`docker rm`.  `runStop` composes the registry (the `RegFile` embedding
above), the assignment-file cleanup, the runtime-specific teardown and the
terminator; each external result lives in `StopEnv`, and the observable
effects are collected in `StopOutcome`.  Console printing is elided;
warnings are collected as a list of message strings. -/

/-- Docker's answers to one `StopSandboxedWorker` call. -/
structure DockerStopEnv where
  /-- Output of `docker ps -a --filter name=^<container>$`: `none` when the
  command itself fails, otherwise its stdout. -/
  psOutput : Option String
  /-- `docker stop -t <secs> <container>` success. -/
  stopOk   : Bool
  /-- `docker rm <container>` success. -/
  rmOk     : Bool

/-- `runtime.StopSandboxedWorker(name, timeout)`: check the container
exists (errors when the check fails or finds nothing), then stop it with
the timeout, then remove it; each docker failure is an error to the caller. -/
def stopSandboxedWorker (denv : DockerStopEnv) (name : String) (_timeoutSecs : Nat) :
    Except String Unit :=
  match denv.psOutput with
  | none => .error "failed to check container"
  | some out =>
    if (trimChars out.data).isEmpty then
      .error ("container yak-worker-" ++ name ++ " not found")
    else if denv.stopOk = false then .error "failed to stop container"
    else if denv.rmOk = false then .error "failed to remove container"
    else .ok ()

/-- Result of `os.Remove` on the task assignment file. -/
inductive RemoveResult
  | removed
  | notExist
  | failed (msg : String)
  deriving Repr, DecidableEq

/-- The stop command's flag values.  `timeout` is the `time.ParseDuration`
result for `--timeout`, in seconds (`none` when the string does not parse). -/
structure StopArgs where
  name    : String
  timeout : Option Nat
  force   : Bool
  dryRun  : Bool

/-- Results the external world returns to each step of `runStop`. -/
structure StopEnv where
  /-- The state of `.yak-boxes/sessions.json` read by `sessions.Get` and
  rewritten by `sessions.Unregister`. -/
  regFile          : RegFile
  /-- `runtime.ListAllContainers()` for the fallback scan: `none` when the
  docker command fails. -/
  containers       : Option (List String)
  /-- `os.Remove` on `.yaks/<task-slug>/assigned-to`. -/
  removeAssignment : RemoveResult
  /-- `runtime.StopNativeWorker` (closing the Zellij tab). -/
  closeTabResult   : Except String Unit
  /-- Docker's answers to `StopSandboxedWorker`. -/
  docker           : DockerStopEnv
  /-- Environment of the `KillNativeProcessTree` call (native runtime). -/
  killEnv          : KillEnv
  /-- Poll budget of the `KillNativeProcessTree` call. -/
  killPolls        : Nat

/-- The observable behaviour of one `runStop` call. -/
structure StopOutcome where
  /-- The error `runStop` returns, `Except.ok ()` on overall success. -/
  result                    : Except String Unit
  /-- Warning messages printed along the way. -/
  warnings                  : List String
  /-- Whether `os.Remove` was invoked on the task's `assigned-to` file. -/
  assignmentRemoveAttempted : Bool
  /-- Whether that call actually deleted the file. -/
  assignmentRemoved         : Bool
  /-- Whether `StopNativeWorker` (tab close) was invoked. -/
  tabCloseAttempted         : Bool
  /-- Whether `StopSandboxedWorker` (docker stop/rm) was invoked. -/
  containerStopAttempted    : Bool
  /-- Whether `KillNativeProcessTree` was invoked. -/
  killAttempted             : Bool
  /-- Whether `sessions.Unregister` was invoked. -/
  unregisterAttempted       : Bool
  /-- The registry file after the call. -/
  regFileAfter              : RegFile

/-- `runStop`: parse the timeout; look the session up by name, falling back
to a scan of all known containers (a synthetic sandboxed session) and
failing when the worker is found nowhere; unless forced, delete the
recorded task's assignment file (missing file is not an error, other
failures are warnings); tear down by runtime kind — for `sandboxed`,
best-effort tab close then container stop/remove, both failures mere
warnings; for `native`, kill the process tree via the PID file (warning on
failure) then best-effort tab close; dry-run only prints intended actions
for either kind — and finally, unless dry-run, unregister the session
(warning on failure). -/
def runStop (args : StopArgs) (env : StopEnv) : StopOutcome :=
  match args.timeout with
  | none =>
    { result := .error "invalid timeout format", warnings := [],
      assignmentRemoveAttempted := false, assignmentRemoved := false,
      tabCloseAttempted := false, containerStopAttempted := false,
      killAttempted := false, unregisterAttempted := false,
      regFileAfter := env.regFile }
  | some timeoutSecs =>
    let lookedUp := getSession args.name env.regFile
    let fallback : Option Session :=
      match lookedUp with
      | .ok s => some s
      | .error _ =>
        match env.containers with
        | some ws =>
          if ws.contains ("yak-worker-" ++ args.name) then
            some { Runtime := "sandboxed",
                   Container := "yak-worker-" ++ args.name,
                   DisplayName := args.name }
          else none
        | none => none
    let lookupWarnings :=
      match lookedUp with
      | .ok _ => []
      | .error _ => ["Could not load session"]
    match fallback with
    | none =>
      { result := .error "worker not found", warnings := lookupWarnings,
        assignmentRemoveAttempted := false, assignmentRemoved := false,
        tabCloseAttempted := false, containerStopAttempted := false,
        killAttempted := false, unregisterAttempted := false,
        regFileAfter := env.regFile }
    | some session =>
      let clearTask : Bool := !args.force && session.Task != ""
      let assignWarnings : List String :=
        if clearTask then
          match env.removeAssignment with
          | .failed m => ["Failed to clear assignment: " ++ m]
          | _ => []
        else []
      let assignRemoved : Bool :=
        clearTask && env.removeAssignment == RemoveResult.removed
      let teardown :
          List String × Bool × Bool × Bool :=
        if session.Runtime = "sandboxed" then
          if args.dryRun then ([], false, false, false)
          else
            let tabWarn :=
              match env.closeTabResult with
              | .error e => ["failed to close tab: " ++ e]
              | .ok _ => []
            let stopWarn :=
              match stopSandboxedWorker env.docker args.name timeoutSecs with
              | .error e => [e]
              | .ok _ => []
            (tabWarn ++ stopWarn, true, true, false)
        else if session.Runtime = "native" then
          if args.dryRun then ([], false, false, false)
          else
            let killAttempt : Bool := session.PidFile != ""
            let killWarn :=
              if killAttempt then
                match killNativeProcessTree env.killEnv env.killPolls with
                | .error e => ["failed to kill process tree: " ++ e]
                | .ok _ => []
              else []
            let tabWarn :=
              match env.closeTabResult with
              | .error e => ["failed to close tab: " ++ e]
              | .ok _ => []
            (killWarn ++ tabWarn, true, false, killAttempt)
        else ([], false, false, false)
      let unreg : RegFile × List String × Bool :=
        if args.dryRun then (env.regFile, [], false)
        else
          match unregister args.name env.regFile with
          | (f', .ok _) => (f', [], true)
          | (f', .error _) => (f', ["Failed to unregister session"], true)
      { result := .ok (),
        warnings := lookupWarnings ++ assignWarnings ++ teardown.1 ++ unreg.2.1,
        assignmentRemoveAttempted := clearTask,
        assignmentRemoved := assignRemoved,
        tabCloseAttempted := teardown.2.1,
        containerStopAttempted := teardown.2.2.1,
        killAttempted := teardown.2.2.2,
        unregisterAttempted := unreg.2.2,
        regFileAfter := unreg.1 }

/-! ## Concrete inputs used by the claim theorems and witnesses -/

/-- A task tree `root/a/b/leaf` and `root/c/leaf2`, in `filepath.Walk`
(lexical depth-first) order. -/
def yakTreeC8 : YakFS :=
  ⟨[["a"], ["a", "b"], ["a", "b", "leaf"], ["c"], ["c", "leaf2"]]⟩

/-- A kill environment whose PID file reads `"123"` and whose process stays
alive through the probe and every poll (survives SIGTERM to the timeout). -/
def stubbornKillEnv : KillEnv :=
  { readResult := some "123", aliveAtProbe := true,
    aliveDuringPoll := fun _ => true }

/-- Flags of a plain non-forced, non-dry-run `stop --name w --timeout 30s`. -/
def stopArgsPlain : StopArgs :=
  { name := "w", timeout := some 30, force := false, dryRun := false }

/-- Flags of `stop --name w --timeout 30s --dry-run` (no `--force`). -/
def stopArgsDry : StopArgs :=
  { name := "w", timeout := some 30, force := false, dryRun := true }

/-- A registered sandboxed session named `w` with no recorded task. -/
def sessionSandboxedW : Session :=
  { Runtime := "sandboxed", Container := "yak-worker-w", DisplayName := "w" }

/-- A registered sandboxed session named `w` recording the task `fixes/x`. -/
def sessionWithTaskW : Session :=
  { Runtime := "sandboxed", Container := "yak-worker-w", DisplayName := "w",
    Task := "fixes/x" }

/-- A stop environment whose registry holds `sessionSandboxedW` and whose
docker cannot find the container (`docker ps -a` prints nothing). -/
def stopEnvNoContainer : StopEnv :=
  { regFile := .valid [("w", sessionSandboxedW)],
    containers := some [],
    removeAssignment := .notExist,
    closeTabResult := .ok (),
    docker := { psOutput := some "", stopOk := false, rmOk := false },
    killEnv := { readResult := none, aliveAtProbe := false,
                 aliveDuringPoll := fun _ => false },
    killPolls := 0 }

/-- A stop environment whose registry holds `sessionWithTaskW`, with an
existing assignment file and a findable, stoppable container. -/
def stopEnvWithTask : StopEnv :=
  { regFile := .valid [("w", sessionWithTaskW)],
    containers := some [],
    removeAssignment := .removed,
    closeTabResult := .ok (),
    docker := { psOutput := some "yak-worker-w", stopOk := true, rmOk := true },
    killEnv := { readResult := none, aliveAtProbe := false,
                 aliveDuringPoll := fun _ => false },
    killPolls := 0 }

/-- Flags of a concrete sandboxed spawn: `--cwd /repo --name "api auth!"
--session yak-box --runtime sandboxed --yaks fixes/x`. -/
def spawnArgsW : SpawnArgs :=
  { cwd := "/repo", name := "api auth!", session := "yak-box", mode := "build",
    resources := "default", yaks := ["fixes/x"], yakPath := ".yaks",
    runtimePref := "sandboxed", tool := "claude", model := "",
    clean := false, autoWorktree := false, yakPathChanged := false,
    userArgs := [] }

/-- An environment in which every step of that spawn succeeds. -/
def spawnEnvW : SpawnEnv :=
  { detected := "sandboxed", absCWD := some "/repo",
    absYakPath := some "/repo/.yaks", foundYakPath := some "/repo/.yaks",
    worktreeResult := .ok "/repo-wt", pickedWorker := "Yakriel",
    cleanHomeOk := true, ensureHomeResult := .ok "/repo/.yak-boxes/@home/Yakriel",
    devConfigOk := true, agentFileExists := false, ensureDevcontainerOk := true,
    sandboxedLaunchOk := true, nativeLaunchResult := .ok "", registerOk := true,
    now := 1 }

/-! ## Helper lemmas on the association-list map -/

theorem mapLookup_insert_self (k : String) (v : Session) (m : SessionsMap) :
    mapLookup k (mapInsert k v m) = some v := by
  induction m with
  | nil => simp [mapInsert, mapLookup]
  | cons p rest ih =>
    by_cases h : p.1 = k
    · simp [mapInsert, h, mapLookup]
    · simp [mapInsert, h, mapLookup, ih]

theorem mapLookup_insert_ne (k k' : String) (v : Session) (m : SessionsMap)
    (h : k' ≠ k) : mapLookup k (mapInsert k' v m) = mapLookup k m := by
  induction m with
  | nil => simp [mapInsert, mapLookup, h]
  | cons p rest ih =>
    by_cases hp : p.1 = k'
    · simp [mapInsert, hp, mapLookup, h]
    · simp [mapInsert, hp, mapLookup, ih]

theorem mapLookup_erase_self (k : String) (m : SessionsMap) :
    mapLookup k (mapErase k m) = none := by
  induction m with
  | nil => simp [mapErase, mapLookup]
  | cons p rest ih =>
    by_cases hp : p.1 = k
    · simp [mapErase, hp, ih]
    · simp [mapErase, hp, mapLookup, ih]

theorem getSession_foldl_register (id : String) (s : Session) :
    ∀ (others : List (String × Session)) (m : SessionsMap),
      (∀ p ∈ others, p.1 ≠ id) → mapLookup id m = some s →
      getSession id
        (others.foldl (fun g p => (register p.1 p.2 g).1) (RegFile.valid m)) =
        .ok s := by
  intro others
  induction others with
  | nil =>
    intro m _ hm
    simp [getSession, loadSessions, hm]
  | cons p rest ih =>
    intro m hne hm
    have hstep : (register p.1 p.2 (RegFile.valid m)).1 =
        RegFile.valid (mapInsert p.1 p.2 m) := by
      simp [register, loadSessions, saveSessions]
    simp only [List.foldl_cons, hstep]
    exact ih (mapInsert p.1 p.2 m) (fun q hq => hne q (List.mem_cons_of_mem p hq))
      (by rw [mapLookup_insert_ne _ _ _ _ (hne p (List.mem_cons_self p rest)), hm])

/-! ## Claim theorems -/

/-- C4.  Session Registry retrieval: on any registry file that loads
(`Register` does not fail), `Register(id, s)` followed by any number of
`Register` calls on ids different from `id` and then `Get(id)` returns
exactly the Session `s` that was registered. -/
theorem register_then_get_returns_same_session
    (f : RegFile) (id : String) (s : Session)
    (others : List (String × Session))
    (hload : (loadSessions f).isOk = true)
    (hothers : ∀ p ∈ others, p.1 ≠ id) :
    getSession id
      (others.foldl (fun g p => (register p.1 p.2 g).1) (register id s f).1) =
      .ok s := by
  match hf : loadSessions f with
  | .error e => rw [hf] at hload; simp [Except.isOk, Except.toBool] at hload
  | .ok m =>
    have hreg : (register id s f).1 = RegFile.valid (mapInsert id s m) := by
      simp [register, hf, saveSessions]
    rw [hreg]
    exact getSession_foldl_register id s others (mapInsert id s m) hothers
      (mapLookup_insert_self id s m)

/-- Witness for C4: a concrete registry round-trip with one intervening
unrelated `Register`. -/
theorem register_then_get_returns_same_session_witness :
    (loadSessions RegFile.absent).isOk = true ∧
    getSession "api-auth"
      ([("other", { Worker := "Yakov" })].foldl
        (fun g p => (register p.1 p.2 g).1)
        (register "api-auth" { Worker := "Yakriel", Runtime := "sandboxed" }
          RegFile.absent).1) =
      .ok { Worker := "Yakriel", Runtime := "sandboxed" } :=
  ⟨by decide, register_then_get_returns_same_session RegFile.absent "api-auth"
      { Worker := "Yakriel", Runtime := "sandboxed" }
      [("other", { Worker := "Yakov" })] (by decide) (by decide)⟩

/-- C5.  Session Registry removal: `Register(id, s)` then `Unregister(id)`
then `Get(id)` yields the NotFound error; and `Unregister(id)` on a loaded
registry that does not contain `id` returns no error. -/
theorem unregister_removes_and_absent_key_is_not_error :
    (∀ (f : RegFile) (id : String) (s : Session),
      (loadSessions f).isOk = true →
      getSession id (unregister id (register id s f).1).1 =
        .error SessionsErr.notFound)
    ∧ (∀ (f : RegFile) (id : String) (m : SessionsMap),
      loadSessions f = .ok m → mapLookup id m = none →
      (unregister id f).2 = .ok ()) := by
  constructor
  · intro f id s hload
    match hf : loadSessions f with
    | .error e => rw [hf] at hload; simp [Except.isOk, Except.toBool] at hload
    | .ok m =>
      have hreg : (register id s f).1 = RegFile.valid (mapInsert id s m) := by
        simp [register, hf, saveSessions]
      rw [hreg]
      simp [unregister, loadSessions, saveSessions, getSession, mapLookup_erase_self]
  · intro f id m hf _hm
    simp [unregister, hf]

/-- Witness for C5: both parts at concrete registries. -/
theorem unregister_removes_and_absent_key_is_not_error_witness :
    ((loadSessions RegFile.absent).isOk = true ∧
      getSession "w1" (unregister "w1"
        (register "w1" { Worker := "Yakira" } RegFile.absent).1).1 =
        .error SessionsErr.notFound)
    ∧ (loadSessions (RegFile.valid [("w2", { Worker := "Yakov" })]) =
        .ok [("w2", { Worker := "Yakov" })] ∧
      mapLookup "w1" [("w2", { Worker := "Yakov" })] = none ∧
      (unregister "w1" (RegFile.valid [("w2", { Worker := "Yakov" })])).2 = .ok ()) :=
  ⟨⟨by decide,
    unregister_removes_and_absent_key_is_not_error.1 RegFile.absent "w1"
      { Worker := "Yakira" } (by decide)⟩,
   ⟨rfl, by decide,
    unregister_removes_and_absent_key_is_not_error.2
      (RegFile.valid [("w2", { Worker := "Yakov" })]) "w1"
      [("w2", { Worker := "Yakov" })] rfl (by decide)⟩⟩

/-- C6.  Session Registry `Load`: a missing registry file loads as the
empty session map with no error, and a registry file with invalid JSON
loads as an unmarshalling error. -/
theorem load_missing_empty_invalid_errors :
    loadSessions RegFile.absent = .ok []
    ∧ loadSessions RegFile.invalid =
        .error (SessionsErr.loadErr "failed to unmarshal sessions") :=
  ⟨rfl, rfl⟩

/-- C9.  Resource Profile Resolver: every name outside
`{light, default, heavy, ram}` resolves to exactly the default profile (the
lookup is total, with no error channel), and the heavy profile has strictly
greater memory and CPU limits than the light profile. -/
theorem resource_profile_fallback_and_ordering :
    (∀ name : String, name ≠ "light" → name ≠ "default" → name ≠ "heavy" →
      name ≠ "ram" → getResourceProfile name = getResourceProfile "default")
    ∧ (∃ hm lm, memGigs (getResourceProfile "heavy").Memory = some hm ∧
        memGigs (getResourceProfile "light").Memory = some lm ∧ lm < hm)
    ∧ (∃ hc lc, cpuTenths (getResourceProfile "heavy").CPUs = some hc ∧
        cpuTenths (getResourceProfile "light").CPUs = some lc ∧ lc < hc) := by
  refine ⟨fun name h1 _h2 h3 h4 => ?_, ⟨4, 1, by decide, by decide, by decide⟩,
    ⟨20, 5, by decide, by decide, by decide⟩⟩
  rw [getResourceProfile, if_neg h1, if_neg h3, if_neg h4]
  rfl

/-- Witness for C9: the fallback at the concrete name `"unknown-name"`. -/
theorem resource_profile_fallback_and_ordering_witness :
    ("unknown-name" ≠ "light" ∧ "unknown-name" ≠ "default" ∧
      "unknown-name" ≠ "heavy" ∧ "unknown-name" ≠ "ram")
    ∧ getResourceProfile "unknown-name" = getResourceProfile "default" :=
  ⟨by decide,
   resource_profile_fallback_and_ordering.1 "unknown-name"
     (by decide) (by decide) (by decide) (by decide)⟩

/-- C8.  Task-directory resolution: on the tree `root/a/b/leaf`,
`root/c/leaf2`, searching for `"leaf"` finds `root/a/b/leaf`; searching for
the exact relative path `"a/b/leaf"` returns the same directory; the direct
path join short-circuits the walk (the result does not depend on the rest
of the tree whenever the joined path is a directory); and a name matching
no directory yields an error containing "no directory matching". -/
theorem find_task_dir_resolution :
    findTaskDir yakTreeC8 "leaf" = .ok ["a", "b", "leaf"]
    ∧ findTaskDir yakTreeC8 "a/b/leaf" = .ok ["a", "b", "leaf"]
    ∧ (∀ fs : YakFS, isDirIn fs (splitSlug "a/b/leaf") = true →
        findTaskDir fs "a/b/leaf" = .ok (splitSlug "a/b/leaf"))
    ∧ errContains (findTaskDir yakTreeC8 "nonexistent-task")
        "no directory matching" = true := by
  refine ⟨rfl, rfl, fun fs h => ?_, by decide⟩
  simp [findTaskDir, h]

/-- Witness for C8: the direct-join conjunct applied to the concrete tree. -/
theorem find_task_dir_resolution_witness :
    isDirIn yakTreeC8 (splitSlug "a/b/leaf") = true ∧
    findTaskDir yakTreeC8 "a/b/leaf" = .ok (splitSlug "a/b/leaf") :=
  ⟨by decide, find_task_dir_resolution.2.2.1 yakTreeC8 (by decide)⟩

theorem pollFindsDead_false (alive : Nat → Bool) :
    ∀ (fuel i : Nat), (∀ j, j < i + fuel → alive j = true) →
      pollFindsDead alive i fuel = false := by
  intro fuel
  induction fuel with
  | zero => intro i _; rfl
  | succ f ih =>
    intro i h
    have hi : alive i = true := h i (by omega)
    simp only [pollFindsDead, hi, if_pos]
    exact ih (i + 1) (fun j hj => h j (by omega))

/-- C2.  Process-Tree Terminator result contract: with a readable PID file,
unparsable content is an error; a process already dead at the liveness
probe means the PID file is deleted and the call succeeds; whenever the PID
parses, the call succeeds and deletes the PID file no matter how the
process behaves — in particular, a process that stays alive through every
poll iteration (survives SIGTERM until the timeout) gets SIGKILL and the
call still deletes the PID file and succeeds without re-verifying death. -/
theorem kill_native_process_tree_contract
    (env : KillEnv) (polls : Nat) (d : String)
    (hread : env.readResult = some d) :
    (parsePid d = none →
      killNativeProcessTree env polls = .error "invalid pid")
    ∧ (∀ p, parsePid d = some p → env.aliveAtProbe = false →
      killNativeProcessTree env polls =
        .ok { pidFileDeleted := true, sigkillSent := false })
    ∧ (∀ p, parsePid d = some p →
      ∃ out, killNativeProcessTree env polls = .ok out ∧
        out.pidFileDeleted = true)
    ∧ (∀ p, parsePid d = some p → env.aliveAtProbe = true →
      (∀ i, i < polls → env.aliveDuringPoll i = true) →
      killNativeProcessTree env polls =
        .ok { pidFileDeleted := true, sigkillSent := true }) := by
  refine ⟨fun hp => ?_, fun p hp hdead => ?_, fun p hp => ?_,
    fun p hp halive hsurvive => ?_⟩
  · simp [killNativeProcessTree, hread, hp]
  · simp [killNativeProcessTree, hread, hp, hdead]
  · cases halive : env.aliveAtProbe with
    | false =>
      refine ⟨{ pidFileDeleted := true, sigkillSent := false }, ?_, rfl⟩
      simp [killNativeProcessTree, hread, hp, halive]
    | true =>
      cases hpoll : pollFindsDead env.aliveDuringPoll 0 polls with
      | false =>
        refine ⟨{ pidFileDeleted := true, sigkillSent := true }, ?_, rfl⟩
        simp [killNativeProcessTree, hread, hp, halive, hpoll]
      | true =>
        refine ⟨{ pidFileDeleted := true, sigkillSent := false }, ?_, rfl⟩
        simp [killNativeProcessTree, hread, hp, halive, hpoll]
  · have hpoll : pollFindsDead env.aliveDuringPoll 0 polls = false :=
      pollFindsDead_false env.aliveDuringPoll polls 0
        (fun j hj => hsurvive j (by omega))
    simp [killNativeProcessTree, hread, hp, halive, hpoll]

/-- Witness for C2: the stubborn process that ignores SIGTERM for the whole
poll budget — the PID file is deleted, SIGKILL is sent, the call succeeds. -/
theorem kill_native_process_tree_contract_witness :
    stubbornKillEnv.readResult = some "123" ∧
    killNativeProcessTree stubbornKillEnv 2 =
      .ok { pidFileDeleted := true, sigkillSent := true } :=
  ⟨rfl,
   (kill_native_process_tree_contract stubbornKillEnv 2 "123" rfl).2.2.2
     123 (by decide) rfl (fun i _ => rfl)⟩

set_option maxHeartbeats 1000000 in
theorem runSpawn_ok_shape (args : SpawnArgs) (env : SpawnEnv)
    (out : SpawnOutcome) (h : runSpawn args env = .ok out) :
    out.registered.Container = "yak-worker-" ++ sanitizeName args.name ∧
    out.registered.Runtime =
      (if args.runtimePref = "auto" then env.detected else args.runtimePref) := by
  simp only [runSpawn] at h
  repeat' split at h
  all_goals first
    | exact Except.noConfusion h
    | (cases h
       rename_i heq
       repeat' split at heq
       all_goals first
         | exact Except.noConfusion heq
         | (cases heq; refine ⟨rfl, ?_⟩; simp_all))

/-- C7.  Container-name sanitization at spawn: whenever `runSpawn` reaches
registration (the launch step succeeded), the Session it registers has
container name `"yak-worker-" ++ sanitize(sessionName)` — spaces replaced
by dashes, every other character outside ASCII letters, digits, dash and
underscore stripped — and records the resolved runtime kind. -/
theorem spawn_registers_sanitized_container_and_runtime
    (args : SpawnArgs) (env : SpawnEnv)
    (h : (runSpawn args env).isOk = true) :
    (runSpawn args env).toOption.map
        (fun o => (o.registered.Container, o.registered.Runtime)) =
      some ("yak-worker-" ++ sanitizeName args.name,
        if args.runtimePref = "auto" then env.detected else args.runtimePref) := by
  match hr : runSpawn args env with
  | .error e => rw [hr] at h; simp [Except.isOk, Except.toBool] at h
  | .ok out =>
    have hc := runSpawn_ok_shape args env out hr
    simp [Except.toOption, hc.1, hc.2]

/-- Witness for C7: the concrete sandboxed spawn of session name
`"api auth!"` registers container `"yak-worker-api-auth"` with runtime
`"sandboxed"`. -/
theorem spawn_registers_sanitized_container_and_runtime_witness :
    (runSpawn spawnArgsW spawnEnvW).isOk = true ∧
    (runSpawn spawnArgsW spawnEnvW).toOption.map
        (fun o => (o.registered.Container, o.registered.Runtime)) =
      some ("yak-worker-" ++ sanitizeName spawnArgsW.name,
        if spawnArgsW.runtimePref = "auto" then spawnEnvW.detected
        else spawnArgsW.runtimePref) :=
  ⟨rfl, spawn_registers_sanitized_container_and_runtime spawnArgsW spawnEnvW rfl⟩

/-- C3 counterexample.  A registered sandboxed session, a non-dry-run stop,
and a docker that cannot find the container: `StopSandboxedWorker` reports
the container-not-found error, yet `runStop` swallows it as a warning and
returns overall success — the claim's fatal case is not fatal. -/
theorem stop_container_not_found_is_not_fatal :
    stopSandboxedWorker stopEnvNoContainer.docker "w" 30 =
      .error "container yak-worker-w not found"
    ∧ getSession stopArgsPlain.name stopEnvNoContainer.regFile =
        .ok sessionSandboxedW
    ∧ sessionSandboxedW.Runtime = "sandboxed"
    ∧ stopArgsPlain.dryRun = false
    ∧ (runStop stopArgsPlain stopEnvNoContainer).result = .ok () :=
  ⟨rfl, rfl, rfl, rfl, rfl⟩

/-- C3 (amended).  Stop Orchestrator sandboxed error policy: a non-dry-run
stop of a registered session whose runtime is sandboxed always succeeds —
every failure while stopping or removing the container (container-not-found
included) and any failure closing the multiplexer tab is reported as a
warning, never as an overall error; the container teardown is attempted. -/
theorem stop_sandboxed_failures_are_warnings
    (args : StopArgs) (env : StopEnv) (s : Session) (t : Nat)
    (ht : args.timeout = some t)
    (hs : getSession args.name env.regFile = .ok s)
    (hrt : s.Runtime = "sandboxed")
    (hdry : args.dryRun = false) :
    (runStop args env).result = .ok () ∧
    (runStop args env).containerStopAttempted = true := by
  simp only [runStop, ht, hs, hrt, hdry]
  simp

/-- Witness for C3 (amended): the same concrete no-container environment. -/
theorem stop_sandboxed_failures_are_warnings_witness :
    (stopArgsPlain.timeout = some 30
      ∧ getSession stopArgsPlain.name stopEnvNoContainer.regFile =
          .ok sessionSandboxedW
      ∧ sessionSandboxedW.Runtime = "sandboxed"
      ∧ stopArgsPlain.dryRun = false)
    ∧ (runStop stopArgsPlain stopEnvNoContainer).result = .ok ()
    ∧ (runStop stopArgsPlain stopEnvNoContainer).containerStopAttempted = true :=
  ⟨⟨rfl, rfl, rfl, rfl⟩,
   (stop_sandboxed_failures_are_warnings stopArgsPlain stopEnvNoContainer
     sessionSandboxedW 30 rfl rfl rfl rfl).1,
   (stop_sandboxed_failures_are_warnings stopArgsPlain stopEnvNoContainer
     sessionSandboxedW 30 rfl rfl rfl rfl).2⟩

/-- C10.  A dry-run stop is not side-effect free: without `--force`, on a
registered session recording a task, `runStop` with the dry-run flag still
invokes the deletion of the task's `assigned-to` file (removing it when it
exists), while leaving the tab, container, process tree and registry entry
untouched — the assignment-cleanup step is not guarded by the dry-run flag,
the unregistration is. -/
theorem dry_run_stop_still_removes_assignment
    (args : StopArgs) (env : StopEnv) (s : Session) (t : Nat)
    (ht : args.timeout = some t)
    (hs : getSession args.name env.regFile = .ok s)
    (hdry : args.dryRun = true)
    (hforce : args.force = false)
    (htask : s.Task ≠ "") :
    (runStop args env).assignmentRemoveAttempted = true
    ∧ (env.removeAssignment = RemoveResult.removed →
        (runStop args env).assignmentRemoved = true)
    ∧ (runStop args env).tabCloseAttempted = false
    ∧ (runStop args env).containerStopAttempted = false
    ∧ (runStop args env).killAttempted = false
    ∧ (runStop args env).unregisterAttempted = false
    ∧ (runStop args env).regFileAfter = env.regFile := by
  have hbne : (s.Task != "") = true := by
    simp only [bne_iff_ne, ne_eq]
    exact htask
  simp only [runStop, ht, hs, hdry, hforce]
  refine ⟨by simp [hbne], fun hrm => by simp [hbne, hrm], ?_, ?_, ?_, by simp, by simp⟩
  all_goals split <;> simp

/-- Witness for C10: the concrete dry-run stop of the session recording
`fixes/x` — the assignment file is removed, nothing else is touched. -/
theorem dry_run_stop_still_removes_assignment_witness :
    (stopArgsDry.timeout = some 30
      ∧ getSession stopArgsDry.name stopEnvWithTask.regFile = .ok sessionWithTaskW
      ∧ stopArgsDry.dryRun = true ∧ stopArgsDry.force = false
      ∧ sessionWithTaskW.Task ≠ "")
    ∧ (runStop stopArgsDry stopEnvWithTask).assignmentRemoveAttempted = true
    ∧ (runStop stopArgsDry stopEnvWithTask).assignmentRemoved = true
    ∧ (runStop stopArgsDry stopEnvWithTask).unregisterAttempted = false :=
  ⟨⟨rfl, rfl, rfl, rfl, by decide⟩,
   (dry_run_stop_still_removes_assignment stopArgsDry stopEnvWithTask
     sessionWithTaskW 30 rfl rfl rfl rfl (by decide)).1,
   (dry_run_stop_still_removes_assignment stopArgsDry stopEnvWithTask
     sessionWithTaskW 30 rfl rfl rfl rfl (by decide)).2.1 rfl,
   (dry_run_stop_still_removes_assignment stopArgsDry stopEnvWithTask
     sessionWithTaskW 30 rfl rfl rfl rfl (by decide)).2.2.2.2.2.1⟩

/-! ## Round-robin lemmas for the persona allocator -/

theorem pickWorkerName_at (names : List String) (k : Nat) (hk : k < names.length) :
    pickWorkerName names ⟨some (k : Int)⟩ =
      (names.getD k "", ⟨some (((k + 1) % names.length : Nat) : Int)⟩) := by
  have hn : ¬names.length = 0 := by omega
  have h1 : ¬((k : Int) < 0) := by omega
  have h2 : ¬(names.length ≤ k) := by omega
  simp [pickWorkerName, hn, h1, h2]

theorem pickWorkerName_fresh (names : List String) (hn : 0 < names.length) :
    pickWorkerName names freshPersonaState =
      (names.getD 0 "", ⟨some ((1 % names.length : Nat) : Int)⟩) := by
  have hn' : ¬names.length = 0 := by omega
  simp [pickWorkerName, freshPersonaState, hn']

theorem pickSeq_from (names : List String) (hn : 0 < names.length) :
    ∀ (m k : Nat), k < names.length →
      (pickSeq names ⟨some (k : Int)⟩ m).1 =
        (List.range m).map (fun i => names.getD ((k + i) % names.length) "") := by
  intro m
  induction m with
  | zero => intro k _; simp [pickSeq]
  | succ m ih =>
    intro k hk
    have hk' : (k + 1) % names.length < names.length := Nat.mod_lt _ hn
    have hmapeq :
        (fun i => names.getD (((k + 1) % names.length + i) % names.length) "") =
          (fun i => names.getD ((k + (i + 1)) % names.length) "") := by
      funext i
      rw [Nat.mod_add_mod]
      congr 2
      omega
    rw [pickSeq, pickWorkerName_at names k hk]
    simp only []
    rw [ih ((k + 1) % names.length) hk', hmapeq, List.range_succ_eq_map,
      List.map_cons, List.map_map]
    have hhead : (k + 0) % names.length = k := by
      rw [Nat.add_zero]
      exact Nat.mod_eq_of_lt hk
    rw [hhead]
    rfl

theorem pickSeq_fresh (names : List String) (hn : 0 < names.length) (m : Nat) :
    (pickSeq names freshPersonaState m).1 =
      (List.range m).map (fun i => names.getD (i % names.length) "") := by
  cases m with
  | zero => simp [pickSeq]
  | succ m =>
    have hk' : 1 % names.length < names.length := Nat.mod_lt _ hn
    have hmapeq :
        (fun i => names.getD ((1 % names.length + i) % names.length) "") =
          (fun i => names.getD ((i + 1) % names.length) "") := by
      funext i
      rw [Nat.mod_add_mod]
      congr 2
      omega
    rw [pickSeq, pickWorkerName_fresh names hn]
    simp only []
    rw [pickSeq_from names hn m (1 % names.length) hk', hmapeq,
      List.range_succ_eq_map, List.map_cons, List.map_map]
    have h0 : 0 % names.length = 0 := Nat.zero_mod _
    rw [h0]
    rfl

theorem window_map_eq_self (names : List String) (_hn : 0 < names.length) :
    (List.range names.length).map
        (fun i => names.getD (i % names.length) "") = names := by
  apply List.ext_getElem
  · simp
  · intro i h1 h2
    simp only [List.getElem_map, List.getElem_range]
    have hi : i < names.length := by simpa using h1
    have hmod : i % names.length = i := Nat.mod_eq_of_lt hi
    rw [hmod, List.getD_eq_getElem _ _ hi]

theorem window_map_eq_append (names : List String) (hn : 0 < names.length) :
    (List.range (2 * names.length)).map
        (fun i => names.getD (i % names.length) "") = names ++ names := by
  apply List.ext_getElem
  · simp [two_mul]
  · intro i h1 h2
    simp only [List.getElem_map, List.getElem_range]
    have hi2 : i < 2 * names.length := by simpa using h1
    have hmod : i % names.length < names.length := Nat.mod_lt _ hn
    rw [List.getD_eq_getElem _ _ hmod, List.getElem_append]
    split
    · rename_i hlt
      have : i % names.length = i := Nat.mod_eq_of_lt hlt
      simp [this]
    · rename_i hge
      push_neg at hge
      have : i % names.length = i - names.length := by
        rw [Nat.mod_eq_sub_mod hge]
        exact Nat.mod_eq_of_lt (by omega)
      simp [this]

theorem chain_ne_append_self (l : List String) (hl : 1 < l.length)
    (hn : l.Nodup) : List.Chain' (· ≠ ·) (l ++ l) := by
  rw [List.chain'_append]
  refine ⟨hn.chain', hn.chain', ?_⟩
  intro x hx y hy
  have h1 : l.length - 1 < l.length := by omega
  have h0 : 0 < l.length := by omega
  rw [List.getLast?_eq_getElem?, List.getElem?_eq_getElem h1] at hx
  rw [List.head?_eq_getElem?, List.getElem?_eq_getElem h0] at hy
  simp only [Option.mem_def, Option.some_inj] at hx hy
  subst hx
  subst hy
  intro he
  have := hn.getElem_inj_iff.mp he
  omega

/-- C1.  Persona Allocator round-robin cycling: from a fresh cursor (no
cursor file), N calls to `pickWorkerName` return exactly the persona list
(a permutation of it), 2N calls return the list twice (the next N calls
reproduce the same sequence); and when the personas are distinct and N > 1,
no two consecutive calls in the whole 2N window return the same persona —
the list is exhausted before any repeat. -/
theorem persona_round_robin (names : List String) (hn : 0 < names.length) :
    (pickSeq names freshPersonaState names.length).1 = names
    ∧ (pickSeq names freshPersonaState (2 * names.length)).1 = names ++ names
    ∧ (names.Nodup → 1 < names.length →
        List.Chain' (· ≠ ·)
          (pickSeq names freshPersonaState (2 * names.length)).1) := by
  refine ⟨?_, ?_, fun hnd hlen => ?_⟩
  · rw [pickSeq_fresh names hn, window_map_eq_self names hn]
  · rw [pickSeq_fresh names hn, window_map_eq_append names hn]
  · rw [pickSeq_fresh names hn, window_map_eq_append names hn]
    exact chain_ne_append_self names hlen hnd

/-- Witness for C1: the actual four-name pool `WorkerNames` cycles
`Yakriel, Yakueline, Yakov, Yakira` twice over eight calls with no two
consecutive repeats. -/
theorem persona_round_robin_witness :
    0 < WorkerNames.length
    ∧ (pickSeq WorkerNames freshPersonaState WorkerNames.length).1 = WorkerNames
    ∧ (pickSeq WorkerNames freshPersonaState (2 * WorkerNames.length)).1 =
        WorkerNames ++ WorkerNames
    ∧ List.Chain' (· ≠ ·)
        (pickSeq WorkerNames freshPersonaState (2 * WorkerNames.length)).1 :=
  ⟨by decide, (persona_round_robin WorkerNames (by decide)).1,
   (persona_round_robin WorkerNames (by decide)).2.1,
   (persona_round_robin WorkerNames (by decide)).2.2 (by decide) (by decide)⟩

end YakBox
